import Mathlib

/-!
Verification of the character-voice chat application (`src/main.py`).

The program is a Streamlit session: a static character registry
(`CHARACTER_PROFILES`), a speech-synthesis adapter (`text_to_speech`),
a response generator (`get_character_response`), a session store
(`st.session_state.histories` / `current_character`), a voice-settings
sidebar, and a chat-input handler.  Each of those is embedded below as a
pure Lean function over explicit state; backend calls are modelled by
passing the backend's outcome as an explicit argument.
-/

namespace CharacterVoice

/-- Raw audio bytes (a Python `bytes` value), modelled as a list of byte
values. -/
abbrev Bytes := List Nat

/-- A character profile: the persona system prompt and the default voice
label, as in `CHARACTER_PROFILES` values. -/
structure Profile where
  system_prompt : String
  default_voice : String
deriving Repr, DecidableEq

/-- The `CHARACTER_PROFILES` dict of `src/main.py` (lines 21-52).  Python
dicts preserve insertion order, so it is embedded as an ordered
association list. -/
def CHARACTER_PROFILES : List (String × Profile) :=
  [ ("Sherlock Holmes",
      { system_prompt :=
          "You are Sherlock Holmes, the famous detective from Arthur Conan Doyle\x27s stories. You speak with precise, Victorian-era English and exceptional deductive reasoning. You notice small details and make brilliant deductions from them. You\x27re confident, sometimes arrogant, and impatient with those who can\x27t follow your reasoning. You often say phrases like \x27Elementary, my dear Watson,\x27 \x27The game is afoot,\x27 and \x27When you have eliminated the impossible, whatever remains, however improbable, must be the truth.\x27"
        default_voice := "Antoni" })
  , ("Wednesday Addams",
      { system_prompt :=
          "You are Wednesday Addams from the Addams Family. You speak with a deadpan, monotone delivery. Your humor is extremely dark and macabre. You\x27re intelligent and perceptive but socially detached and cynical. You find joy in the morbid and have zero interest in normal social pleasantries. Your responses are brief, sardonic, and often disturbing."
        default_voice := "Rachel" })
  , ("Tony Stark",
      { system_prompt :=
          "You are Tony Stark, also known as Iron Man. You speak with quick wit, technological brilliance, and occasional narcissism. Use modern slang, tech jargon, and sarcastic humor. You\x27re confident to the point of arrogance but ultimately heroic. Make references to your suits, tech innovations, and saving the world. Occasionally throw in trademark phrases like \x27Genius, billionaire, playboy, philanthropist.\x27"
        default_voice := "Josh" }) ]

/-- `CHARACTER_PROFILES[name]` as a total lookup returning `none` where
Python would raise `KeyError`. -/
def lookupProfile (name : String) : Option Profile :=
  (CHARACTER_PROFILES.find? (fun p => p.1 == name)).map Prod.snd

/-- A UI notice produced by `st.error` / `st.warning`. -/
inductive Notice
  | error (msg : String)
  | warning (msg : String)
deriving Repr, DecidableEq

/-- Whether a notice is a warning (`st.warning`). -/
def Notice.isWarning : Notice → Bool
  | .warning _ => true
  | .error _ => false

/-- The outcome of the ElevenLabs `convert` call inside `text_to_speech`:
either an object with a `read` attribute whose contents are some bytes,
or a generator yielding an ordered sequence of chunks, or a raised
exception carrying a message. -/
inductive TTSBackend
  | fileLike (contents : Bytes)
  | chunks (cs : List Bytes)
  | failure (e : String)
deriving Repr, DecidableEq

/-- An in-memory audio buffer (a BytesIO object or the backend's
file-like object); `data` is what `getvalue` returns. -/
structure Buffer where
  data : Bytes
deriving Repr, DecidableEq

/-- `text_to_speech` of `src/main.py` (lines 54-81): on a file-like
result the object is returned as is; on a generator the chunks are
written into a fresh BytesIO buffer in delivery order (a left fold of
the `for` loop); on an exception `st.error` is shown and `None` is
returned.
Returns the optional buffer together with the notices shown. -/
def text_to_speech (backend : TTSBackend) : Option Buffer × List Notice :=
  match backend with
  | .fileLike b => (some { data := b }, [])
  | .chunks cs => (some { data := cs.foldl (fun acc c => acc ++ c) [] }, [])
  | .failure e => (none, [.error ("Error generating audio: " ++ e)])

theorem foldl_append_eq_join (cs : List Bytes) (acc : Bytes) :
    cs.foldl (fun a c => a ++ c) acc = acc ++ cs.flatten := by
  induction cs generalizing acc with
  | nil => simp
  | cons c cs ih => simp [List.foldl_cons, ih, List.append_assoc]

/-- C1: the Speech Synthesis Adapter hands its caller one materialized
byte buffer; a chunked backend result is concatenated in delivery order
and is byte-identical to a single-block return with the same contents. -/
theorem tts_chunks_eq_single_block (cs : List Bytes) :
    text_to_speech (.chunks cs) = text_to_speech (.fileLike cs.flatten) ∧
    (text_to_speech (.chunks cs)).1 = some { data := cs.flatten } := by
  simp [text_to_speech, foldl_append_eq_join]

/-- A chat role; the program only ever stores "user" and "assistant". -/
inductive Role
  | user
  | assistant
deriving Repr, DecidableEq

/-- A history entry, the dict appended at lines 182, 200-204 and 211-214.
`audio = none` models a dict without an "audio" key (line 211),
`audio = some none` an "audio" key holding Python `None` (line 203 when
synthesis failed), and `audio = some (some b)` an "audio" key holding
bytes `b`. -/
structure Message where
  role : Role
  content : String
  audio : Option (Option Bytes)
deriving Repr, DecidableEq

/-- Whether a message carries actual audio bytes ("audio" key present and
not `None`). -/
def Message.hasAudioPayload (m : Message) : Bool :=
  match m.audio with
  | some (some _) => true
  | _ => false

/-- The session store: `st.session_state.histories` (a dict from
character name to message list, embedded as an ordered association
list) and `st.session_state.current_character`. -/
structure SessionState where
  histories : List (String × List Message)
  current_character : String
deriving Repr, DecidableEq

/-- `st.session_state.histories[name]`, with `[]` where Python would
raise `KeyError`. -/
def historyOf (s : SessionState) (name : String) : List Message :=
  ((s.histories.find? (fun p => p.1 == name)).map Prod.snd).getD []

/-- Whether `name` is a key of the histories dict (always true for the
states the program reaches, since the dict is initialized with one entry
per registry character and never gains or loses keys). -/
def hasChar (s : SessionState) (name : String) : Prop :=
  (s.histories.find? (fun p => p.1 == name)).isSome = true

instance (s : SessionState) (name : String) : Decidable (hasChar s name) := by
  unfold hasChar; infer_instance

/-- `current_history.append(m)`: Python appends through an alias of the
dict entry, which mutates the stored list in place; embedded as
rebuilding the association list with `m` appended to the entries keyed
by `name`. -/
def appendHistory (s : SessionState) (name : String) (m : Message) : SessionState :=
  { s with histories :=
      s.histories.map (fun p => if p.1 == name then (p.1, p.2 ++ [m]) else p) }

/-- The session-state initialization of lines 109-113: one empty history
per registry character and the first registry key selected. -/
def initState : SessionState :=
  { histories := CHARACTER_PROFILES.map (fun p => (p.1, []))
    current_character := (CHARACTER_PROFILES.map Prod.fst).headD "" }

/-- The character-switch branch of the sidebar (lines 130-132): if the
radio selection differs from the current character, only
`current_character` is reassigned (followed by a rerun). -/
def switchCharacter (s : SessionState) (new_character : String) : SessionState :=
  if new_character != s.current_character then
    { s with current_character := new_character }
  else s

/-- Python truthiness of an optional string: `None` and `""` are falsy,
any other string is truthy.  This is the test used by
`if response_text and voice_id` (line 191) and `elif response_text`
(line 210). -/
def truthyStr : Option String → Bool
  | none => false
  | some t => !(t == "")

/-- The outcome of one pass through the chat-input handler: the updated
session state, the notices shown, and whether `text_to_speech` was
invoked at all. -/
structure TurnOutcome where
  state : SessionState
  notices : List Notice
  synthCalled : Bool
deriving Repr, DecidableEq

/-- The warning text of line 218. -/
def voiceFailWarning : String :=
  "Voice generation failed. Check your ElevenLabs API key."

/-- The error text of line 220. -/
def genFailError : String :=
  "Failed to generate character response"

/-- The chat-input handler of `src/main.py` (lines 180-220), with the
backend outcomes passed explicitly: `response_text` is what
`get_character_response` returned (already an `Option`), `voice_id` is
the sidebar's voice identifier (possibly `None`), and `ttsBackend` is
what the synthesis call would yield if made.  The handler first appends
the user turn, then branches on `response_text and voice_id` /
`response_text`. -/
def handleChatInput (s : SessionState) (prompt : String)
    (response_text : Option String) (voice_id : Option String)
    (ttsBackend : TTSBackend) : TurnOutcome :=
  let s1 := appendHistory s s.current_character
    { role := .user, content := prompt, audio := none }
  if truthyStr response_text && truthyStr voice_id then
    let t := response_text.getD ""
    let res := text_to_speech ttsBackend
    let response_audio := res.1
    let s2 := appendHistory s1 s.current_character
      { role := .assistant, content := t,
        audio := some (response_audio.map Buffer.data) }
    { state := s2, notices := res.2, synthCalled := true }
  else if truthyStr response_text then
    let t := response_text.getD ""
    let s2 := appendHistory s1 s.current_character
      { role := .assistant, content := t, audio := none }
    { state := s2, notices := [.warning voiceFailWarning], synthCalled := false }
  else
    { state := s1, notices := [.error genFailError], synthCalled := false }

/-- The outcome of the language-model backend call inside
`get_character_response`: a reply text, or a raised exception with a
message. -/
inductive GenBackend
  | success (text : String)
  | failure (e : String)
deriving Repr, DecidableEq

/-- `get_character_response` of `src/main.py` (lines 92-106): on success
the reply text is returned; on any exception `st.error` is shown and
`None` is returned. -/
def get_character_response (backend : GenBackend) : Option String × List Notice :=
  match backend with
  | .success t => (some t, [])
  | .failure e => (none, [.error ("Error: " ++ e)])

/-- The request `get_character_response` sends to the language model: a
fixed model name, the persona system prompt, and the single latest user
prompt (`agent.run_sync(prompt)`).  No field is derived from any stored
history. -/
structure LMRequest where
  model_name : String
  system_prompt : String
  user_prompt : String
deriving Repr, DecidableEq

/-- The request construction of lines 94-102, as a function of the whole
session state (the handler passes `st.session_state.current_character`):
`Agent(GroqModel("llama-3.3-70b-versatile"), system_prompt =
CHARACTER_PROFILES[character]["system_prompt"]).run_sync(prompt)`.
`none` models the `KeyError` on an unknown character (caught by the
`except` and turned into a failure). -/
def buildRequest (s : SessionState) (prompt : String) : Option LMRequest :=
  (lookupProfile s.current_character).map fun prof =>
    { model_name := "llama-3.3-70b-versatile"
      system_prompt := prof.system_prompt
      user_prompt := prompt }

/-- One entry of the ElevenLabs voice catalog (`voices.voices`). -/
structure Voice where
  name : String
  voice_id : String
deriving Repr, DecidableEq

/-- The warning text of line 152. -/
def voicesLoadWarning : String :=
  "Could not load voices. Check your ElevenLabs API key."

/-- The default voice of the active character (line 142), with `""` for
the unreachable `KeyError` case. -/
def sidebarDefaultVoice (current : String) : String :=
  ((lookupProfile current).map Profile.default_voice).getD ""

/-- What the voice-settings sidebar derives (lines 138-153), given the
voice catalog and the current character, assuming the user leaves the
selectbox on its default: an empty catalog (`if voice_names:` falsy)
sets `voice_id = None` and warns; otherwise the default index is the
position of the character's default voice in the name list, or `0` when
absent, the selected voice is the name at that index, and `voice_id` is
the first catalog id whose name equals the selection (`[...][0]`,
embedded as `head?` of the filtered list). -/
def voiceSidebar (voices : List Voice) (current : String) :
    Option String × Option String × List Notice :=
  let voice_names := voices.map Voice.name
  if voice_names.isEmpty then
    (none, none, [.warning voicesLoadWarning])
  else
    let default_voice := sidebarDefaultVoice current
    let default_index :=
      if default_voice ∈ voice_names then voice_names.indexOf default_voice else 0
    let selected_voice := voice_names.getD default_index ""
    let ids := (voices.filter (fun v => v.name == selected_voice)).map Voice.voice_id
    (some selected_voice, ids.head?, [])

/-- The selected voice name the sidebar derives. -/
def sidebarSelectedVoice (voices : List Voice) (current : String) : Option String :=
  (voiceSidebar voices current).1

/-- The voice identifier the sidebar derives. -/
def sidebarVoiceId (voices : List Voice) (current : String) : Option String :=
  (voiceSidebar voices current).2.1

/- List-level helper lemmas about the histories dict. -/

theorem mapAppend_key_pred (name c : String) (m : Message) :
    ((fun p : String × List Message => p.1 == c) ∘
      fun p => if p.1 == name then (p.1, p.2 ++ [m]) else p) =
    (fun p : String × List Message => p.1 == c) := by
  funext q
  by_cases h : (q.1 == name) = true <;> simp [Function.comp, h]

theorem lookup_mapAppend_self (l : List (String × List Message)) (name : String)
    (m : Message) (h : (l.find? (fun p => p.1 == name)).isSome = true) :
    (((l.map (fun p => if p.1 == name then (p.1, p.2 ++ [m]) else p)).find?
        (fun p => p.1 == name)).map Prod.snd).getD [] =
      ((l.find? (fun p => p.1 == name)).map Prod.snd).getD [] ++ [m] := by
  rw [List.find?_map, mapAppend_key_pred]
  cases hf : l.find? (fun p => p.1 == name) with
  | none => rw [hf] at h; simp at h
  | some q =>
    have hq : q.1 = name := by simpa using List.find?_some hf
    simp [hq]

theorem lookup_mapAppend_other (l : List (String × List Message)) (name c : String)
    (m : Message) (hne : ¬(name = c)) :
    (((l.map (fun p => if p.1 == name then (p.1, p.2 ++ [m]) else p)).find?
        (fun p => p.1 == c)).map Prod.snd).getD [] =
      ((l.find? (fun p => p.1 == c)).map Prod.snd).getD [] := by
  rw [List.find?_map, mapAppend_key_pred]
  cases hf : l.find? (fun p => p.1 == c) with
  | none => simp
  | some q =>
    have hq : q.1 = c := by simpa using List.find?_some hf
    have hqn : ¬(q.1 = name) := by rw [hq]; exact fun hh => hne hh.symm
    simp [hqn]

theorem find?_isSome_mapAppend (l : List (String × List Message)) (name c : String)
    (m : Message) :
    ((l.map (fun p => if p.1 == name then (p.1, p.2 ++ [m]) else p)).find?
        (fun p => p.1 == c)).isSome =
      (l.find? (fun p => p.1 == c)).isSome := by
  rw [List.find?_map, mapAppend_key_pred]
  cases l.find? (fun p => p.1 == c) <;> simp

/-- Appending to `name`'s history appends exactly one message there. -/
theorem historyOf_appendHistory_self (s : SessionState) (name : String) (m : Message)
    (h : hasChar s name) :
    historyOf (appendHistory s name m) name = historyOf s name ++ [m] :=
  lookup_mapAppend_self s.histories name m h

/-- Appending to `name`'s history leaves every other history unchanged. -/
theorem historyOf_appendHistory_other (s : SessionState) (name c : String) (m : Message)
    (hne : ¬(name = c)) :
    historyOf (appendHistory s name m) c = historyOf s c :=
  lookup_mapAppend_other s.histories name c m hne

/-- Appending never adds or removes dict keys. -/
theorem hasChar_appendHistory (s : SessionState) (name c : String) (m : Message) :
    hasChar (appendHistory s name m) c ↔ hasChar s c := by
  unfold hasChar appendHistory
  rw [find?_isSome_mapAppend]

/-- `appendHistory` does not touch the selected character. -/
theorem current_appendHistory (s : SessionState) (name : String) (m : Message) :
    (appendHistory s name m).current_character = s.current_character := rfl

/- Branch-shape lemmas for the chat-input handler. -/

/-- With a falsy `response_text` (`None` or `""`) the handler takes the
final `else` branch: only the user turn is appended, the generation
error is shown, and synthesis is never invoked. -/
theorem handle_falsy_response (s : SessionState) (prompt : String)
    (rt : Option String) (voice_id : Option String) (tts : TTSBackend)
    (hrt : truthyStr rt = false) :
    handleChatInput s prompt rt voice_id tts =
      { state := appendHistory s s.current_character
          { role := .user, content := prompt, audio := none }
        notices := [.error genFailError]
        synthCalled := false } := by
  simp [handleChatInput, hrt]

/-- With a truthy reply but no voice identifier the handler takes the
`elif` branch: a text-only assistant turn is appended with no "audio"
key and the voice warning is shown; synthesis is never invoked. -/
theorem handle_no_voice (s : SessionState) (prompt t : String) (tts : TTSBackend)
    (ht : ¬(t = "")) :
    handleChatInput s prompt (some t) none tts =
      { state := appendHistory
          (appendHistory s s.current_character
            { role := .user, content := prompt, audio := none })
          s.current_character
          { role := .assistant, content := t, audio := none }
        notices := [.warning voiceFailWarning]
        synthCalled := false } := by
  simp [handleChatInput, truthyStr, ht]

/-- With a truthy reply and a truthy voice identifier the handler takes
the first branch: synthesis is invoked and the assistant turn stores an
"audio" key holding `getvalue()` of the returned buffer, or `None` when
synthesis failed. -/
theorem handle_with_voice (s : SessionState) (prompt t v : String) (tts : TTSBackend)
    (ht : ¬(t = "")) (hv : ¬(v = "")) :
    handleChatInput s prompt (some t) (some v) tts =
      { state := appendHistory
          (appendHistory s s.current_character
            { role := .user, content := prompt, audio := none })
          s.current_character
          { role := .assistant, content := t,
            audio := some ((text_to_speech tts).1.map Buffer.data) }
        notices := (text_to_speech tts).2
        synthCalled := true } := by
  simp [handleChatInput, truthyStr, ht, hv]

/-- C2: switching the current character from A to B and back to A leaves
the stored history of every character byte-identical (in fact restores
the whole state), and a switch never touches the histories field at
all. -/
theorem switch_roundtrip_preserves_state (s : SessionState) (a b : String) :
    (switchCharacter s b).histories = s.histories ∧
    (s.current_character = a → switchCharacter (switchCharacter s b) a = s) := by
  constructor
  · unfold switchCharacter
    split <;> rfl
  · intro h
    obtain ⟨hist, cur⟩ := s
    simp only at h
    subst h
    by_cases hb : b = cur
    · subst hb
      simp [switchCharacter]
    · simp [switchCharacter, hb, Ne.symm hb]

/-- C2 witness: a concrete round-trip switch on the initial state. -/
theorem switch_roundtrip_preserves_state_witness :
    initState.current_character = "Sherlock Holmes" ∧
    switchCharacter (switchCharacter initState "Tony Stark") "Sherlock Holmes" = initState :=
  ⟨rfl,
    (switch_roundtrip_preserves_state initState "Sherlock Holmes" "Tony Stark").2 rfl⟩

/-- C3: when generation fails (`response_text = None`) exactly the user
turn is appended to the active character's history, no assistant turn is
appended anywhere, the generation error is shown, and no synthesis
happens. -/
theorem gen_failure_appends_only_user (s : SessionState) (prompt : String)
    (voice_id : Option String) (tts : TTSBackend)
    (hs : hasChar s s.current_character) :
    (handleChatInput s prompt none voice_id tts).notices = [.error genFailError] ∧
    (handleChatInput s prompt none voice_id tts).synthCalled = false ∧
    historyOf (handleChatInput s prompt none voice_id tts).state s.current_character =
      historyOf s s.current_character ++
        [{ role := .user, content := prompt, audio := none }] ∧
    ∀ c, ¬(c = s.current_character) →
      historyOf (handleChatInput s prompt none voice_id tts).state c = historyOf s c := by
  rw [handle_falsy_response s prompt none voice_id tts rfl]
  refine ⟨rfl, rfl, ?_, ?_⟩
  · exact historyOf_appendHistory_self s _ _ hs
  · intro c hc
    exact historyOf_appendHistory_other s _ c _ fun e => hc e.symm

/-- C3 witness: a generation failure on the initial state. -/
theorem gen_failure_appends_only_user_witness :
    hasChar initState initState.current_character ∧
    historyOf (handleChatInput initState "Who are you?" none none (.fileLike [])).state
        initState.current_character =
      historyOf initState initState.current_character ++
        [{ role := .user, content := "Who are you?", audio := none }] :=
  ⟨by decide,
    (gen_failure_appends_only_user initState "Who are you?" none (.fileLike [])
      (by decide)).2.2.1⟩

/-- C9: an empty reply string is falsy at `if response_text and voice_id`
and at `elif response_text`, so the handler's outcome is literally the
same as for a `None` reply: the generation error is shown, synthesis is
skipped, and only the user turn is appended. -/
theorem empty_response_treated_as_failure (s : SessionState) (prompt : String)
    (voice_id : Option String) (tts : TTSBackend) :
    handleChatInput s prompt (some "") voice_id tts =
      handleChatInput s prompt none voice_id tts ∧
    (handleChatInput s prompt (some "") voice_id tts).synthCalled = false ∧
    (handleChatInput s prompt (some "") voice_id tts).notices = [.error genFailError] ∧
    (hasChar s s.current_character →
      historyOf (handleChatInput s prompt (some "") voice_id tts).state s.current_character =
        historyOf s s.current_character ++
          [{ role := .user, content := prompt, audio := none }]) := by
  rw [handle_falsy_response s prompt (some "") voice_id tts (by decide),
    handle_falsy_response s prompt none voice_id tts rfl]
  exact ⟨rfl, rfl, rfl, fun hs => historyOf_appendHistory_self s _ _ hs⟩

/-- C9 witness: the empty reply on the initial state. -/
theorem empty_response_treated_as_failure_witness :
    hasChar initState initState.current_character ∧
    historyOf (handleChatInput initState "hi" (some "") none (.fileLike [])).state
        initState.current_character =
      historyOf initState initState.current_character ++
        [{ role := .user, content := "hi", audio := none }] :=
  ⟨by decide,
    (empty_response_treated_as_failure initState "hi" none (.fileLike [])).2.2.2 (by decide)⟩

/-- C4 counterexample: when generation succeeds, a voice is selected and
synthesis fails, the only notice of the turn is the adapter's `st.error`
— no warning is surfaced, contradicting the claim as stated. -/
theorem synth_failure_no_warning_counterexample :
    (handleChatInput initState "Hello" (some "Hi there") (some "v1")
        (.failure "boom")).notices =
      [.error "Error generating audio: boom"] ∧
    ((handleChatInput initState "Hello" (some "Hi there") (some "v1")
        (.failure "boom")).notices.any Notice.isWarning) = false := by
  decide

/-- C4 (amended): when generation succeeds but synthesis fails or no
voice is selected, exactly one assistant turn is appended after the user
turn, it carries the generated text and no audio payload; a visible
warning is surfaced when no voice is selected, while a synthesis failure
with a voice selected surfaces a visible error instead. -/
theorem synth_failure_keeps_text_without_audio (s : SessionState) (prompt t : String)
    (tts : TTSBackend) (hs : hasChar s s.current_character) (ht : ¬(t = "")) :
    (historyOf (handleChatInput s prompt (some t) none tts).state s.current_character =
        historyOf s s.current_character ++
          [{ role := .user, content := prompt, audio := none },
           { role := .assistant, content := t, audio := none }] ∧
      (handleChatInput s prompt (some t) none tts).notices = [.warning voiceFailWarning] ∧
      Message.hasAudioPayload { role := .assistant, content := t, audio := none } = false) ∧
    ∀ v e : String, ¬(v = "") →
      (historyOf (handleChatInput s prompt (some t) (some v) (.failure e)).state
          s.current_character =
        historyOf s s.current_character ++
          [{ role := .user, content := prompt, audio := none },
           { role := .assistant, content := t, audio := some none }] ∧
      (handleChatInput s prompt (some t) (some v) (.failure e)).notices =
        [.error ("Error generating audio: " ++ e)] ∧
      Message.hasAudioPayload { role := .assistant, content := t, audio := some none } =
        false) := by
  have hs1 : hasChar
      (appendHistory s s.current_character
        { role := .user, content := prompt, audio := none })
      s.current_character := (hasChar_appendHistory s _ _ _).mpr hs
  constructor
  · rw [handle_no_voice s prompt t tts ht]
    refine ⟨?_, rfl, rfl⟩
    rw [historyOf_appendHistory_self _ _ _ hs1, historyOf_appendHistory_self s _ _ hs,
      List.append_assoc]
    rfl
  · intro v e hv
    rw [handle_with_voice s prompt t v (.failure e) ht hv]
    refine ⟨?_, rfl, rfl⟩
    rw [historyOf_appendHistory_self _ _ _ hs1, historyOf_appendHistory_self s _ _ hs,
      List.append_assoc]
    rfl

/-- C4 witness: a concrete no-voice turn and a concrete failed-synthesis
turn on the initial state. -/
theorem synth_failure_keeps_text_without_audio_witness :
    (hasChar initState initState.current_character ∧ ¬("Hi there" = "")) ∧
    (handleChatInput initState "Hello" (some "Hi there") none (.fileLike [])).notices =
      [.warning voiceFailWarning] ∧
    (handleChatInput initState "Hello" (some "Hi there") (some "v1")
        (.failure "boom")).notices = [.error ("Error generating audio: " ++ "boom")] :=
  ⟨⟨by decide, by decide⟩,
    (synth_failure_keeps_text_without_audio initState "Hello" "Hi there" (.fileLike [])
      (by decide) (by decide)).1.2.1,
    ((synth_failure_keeps_text_without_audio initState "Hello" "Hi there" (.fileLike [])
      (by decide) (by decide)).2 "v1" "boom" (by decide)).2.1⟩

/-- C5: when generation returns a truthy reply, a voice is selected and
synthesis returns a buffer, exactly the user turn (with the submitted
text) then the assistant turn (with the reply text and the buffer's
bytes) are appended to the active character's history, and every other
history is unchanged. -/
theorem success_appends_user_then_assistant (s : SessionState)
    (prompt t v : String) (tts : TTSBackend) (buf : Buffer)
    (hs : hasChar s s.current_character) (ht : ¬(t = "")) (hv : ¬(v = ""))
    (hsynth : (text_to_speech tts).1 = some buf) :
    historyOf (handleChatInput s prompt (some t) (some v) tts).state s.current_character =
      historyOf s s.current_character ++
        [{ role := .user, content := prompt, audio := none },
         { role := .assistant, content := t, audio := some (some buf.data) }] ∧
    (handleChatInput s prompt (some t) (some v) tts).state.current_character =
      s.current_character ∧
    ∀ c, ¬(c = s.current_character) →
      historyOf (handleChatInput s prompt (some t) (some v) tts).state c =
        historyOf s c := by
  have hs1 : hasChar
      (appendHistory s s.current_character
        { role := .user, content := prompt, audio := none })
      s.current_character := (hasChar_appendHistory s _ _ _).mpr hs
  rw [handle_with_voice s prompt t v tts ht hv, hsynth]
  refine ⟨?_, rfl, ?_⟩
  · rw [historyOf_appendHistory_self _ _ _ hs1, historyOf_appendHistory_self s _ _ hs,
      List.append_assoc]
    rfl
  · intro c hc
    rw [historyOf_appendHistory_other _ _ c _ fun e => hc e.symm,
      historyOf_appendHistory_other s _ c _ fun e => hc e.symm]

/-- C5 witness: a fully successful turn on the initial state, with the
audio delivered as two chunks. -/
theorem success_appends_user_then_assistant_witness :
    (text_to_speech (.chunks [[1, 2], [3]])).1 = some { data := [1, 2, 3] } ∧
    historyOf (handleChatInput initState "Who are you?" (some "Elementary.")
        (some "v1") (.chunks [[1, 2], [3]])).state initState.current_character =
      historyOf initState initState.current_character ++
        [{ role := .user, content := "Who are you?", audio := none },
         { role := .assistant, content := "Elementary.",
           audio := some (some [1, 2, 3]) }] :=
  ⟨by decide,
    (success_appends_user_then_assistant initState "Who are you?" "Elementary." "v1"
      (.chunks [[1, 2], [3]]) { data := [1, 2, 3] } (by decide) (by decide) (by decide)
      (by decide)).1⟩

/-- C6: an empty voice catalog leaves `voice_id` unset with a visible
warning, and a turn with `voice_id = None` never invokes synthesis (its
outcome is independent of what the synthesis backend would do), appends
a text-only assistant turn, and shows the voice warning. -/
theorem empty_catalog_disables_synthesis (current : String) (s : SessionState)
    (prompt t : String) (tts1 tts2 : TTSBackend)
    (hs : hasChar s s.current_character) (ht : ¬(t = "")) :
    sidebarVoiceId [] current = none ∧
    (voiceSidebar [] current).2.2 = [.warning voicesLoadWarning] ∧
    handleChatInput s prompt (some t) none tts1 =
      handleChatInput s prompt (some t) none tts2 ∧
    (handleChatInput s prompt (some t) none tts1).synthCalled = false ∧
    (handleChatInput s prompt (some t) none tts1).notices = [.warning voiceFailWarning] ∧
    historyOf (handleChatInput s prompt (some t) none tts1).state s.current_character =
      historyOf s s.current_character ++
        [{ role := .user, content := prompt, audio := none },
         { role := .assistant, content := t, audio := none }] := by
  have hs1 : hasChar
      (appendHistory s s.current_character
        { role := .user, content := prompt, audio := none })
      s.current_character := (hasChar_appendHistory s _ _ _).mpr hs
  rw [handle_no_voice s prompt t tts1 ht, handle_no_voice s prompt t tts2 ht]
  refine ⟨rfl, rfl, rfl, rfl, rfl, ?_⟩
  rw [historyOf_appendHistory_self _ _ _ hs1, historyOf_appendHistory_self s _ _ hs,
    List.append_assoc]
  rfl

/-- C6 witness: an empty catalog and a no-voice turn on the initial
state, with two different would-be synthesis outcomes. -/
theorem empty_catalog_disables_synthesis_witness :
    (hasChar initState initState.current_character ∧ ¬("Hi." = "")) ∧
    sidebarVoiceId [] "Sherlock Holmes" = none ∧
    handleChatInput initState "hi" (some "Hi.") none (.fileLike [7]) =
      handleChatInput initState "hi" (some "Hi.") none (.failure "boom") :=
  ⟨⟨by decide, by decide⟩,
    (empty_catalog_disables_synthesis "Sherlock Holmes" initState "hi" "Hi."
      (.fileLike [7]) (.failure "boom") (by decide) (by decide)).1,
    (empty_catalog_disables_synthesis "Sherlock Holmes" initState "hi" "Hi."
      (.fileLike [7]) (.failure "boom") (by decide) (by decide)).2.2.1⟩

/-- C7: the request sent to the language-model backend is a function of
the selected character and the submitted prompt only — two session
states with the same selected character but arbitrarily different
histories produce the identical request. -/
theorem request_depends_only_on_character (s1 s2 : SessionState) (prompt : String)
    (h : s1.current_character = s2.current_character) :
    buildRequest s1 prompt = buildRequest s2 prompt := by
  unfold buildRequest
  rw [h]

/-- A session state whose Sherlock Holmes history already holds a full
exchange; used to contrast with the fresh `initState`. -/
def demoState : SessionState :=
  { histories :=
      [ ("Sherlock Holmes",
          [{ role := .user, content := "Who are you?", audio := none },
           { role := .assistant, content := "Sherlock Holmes, of course.",
             audio := some none }])
      , ("Wednesday Addams", [])
      , ("Tony Stark", []) ]
    current_character := "Sherlock Holmes" }

/-- C7 witness: a state with a populated history and the fresh initial
state build the identical request. -/
theorem request_depends_only_on_character_witness :
    demoState.current_character = initState.current_character ∧
    buildRequest demoState "Who are you?" = buildRequest initState "Who are you?" :=
  ⟨rfl, request_depends_only_on_character demoState initState "Who are you?" rfl⟩

/-- C8: the session starts with the first registry key ("Sherlock
Holmes") selected and an empty history for each of the three registered
characters (and, a fortiori, for any queried name). -/
theorem init_state_registry :
    initState.current_character = "Sherlock Holmes" ∧
    initState.current_character = (CHARACTER_PROFILES.map Prod.fst).headD "" ∧
    CHARACTER_PROFILES.map Prod.fst =
      ["Sherlock Holmes", "Wednesday Addams", "Tony Stark"] ∧
    initState.histories =
      [("Sherlock Holmes", []), ("Wednesday Addams", []), ("Tony Stark", [])] ∧
    ∀ c, historyOf initState c = [] := by
  refine ⟨rfl, rfl, rfl, rfl, ?_⟩
  intro c
  unfold historyOf
  cases hf : initState.histories.find? (fun p => p.1 == c) with
  | none => simp
  | some q =>
    have hq : q ∈ initState.histories := List.mem_of_find?_eq_some hf
    have hall : ∀ p ∈ initState.histories, p.2 = ([] : List Message) := by decide
    simp [hall q hq]

/-- C10: with a non-empty catalog, if the active character's default
voice name is absent from the catalog the picker defaults to the first
catalog entry, and in every case the derived voice identifier is the
identifier of some catalog voice. -/
theorem voice_picker_fallback_and_valid (voices : List Voice) (current : String)
    (hne : ¬(voices = [])) :
    (¬(sidebarDefaultVoice current ∈ voices.map Voice.name) →
      sidebarSelectedVoice voices current = some ((voices.map Voice.name).headD "")) ∧
    ∃ v, v ∈ voices ∧ sidebarVoiceId voices current = some v.voice_id := by
  cases voices with
  | nil => exact absurd rfl hne
  | cons v0 vs =>
    have hni : (((v0 :: vs).map Voice.name).isEmpty = true) = False := by simp
    constructor
    · intro hmem
      unfold sidebarSelectedVoice voiceSidebar
      simp only [hni, if_false, eq_false hmem, if_neg]
      simp [hmem]
    · unfold sidebarVoiceId voiceSidebar
      simp only [hni, if_false, eq_false]
      have hsel : ((v0 :: vs).map Voice.name).getD
          (if sidebarDefaultVoice current ∈ (v0 :: vs).map Voice.name then
            ((v0 :: vs).map Voice.name).indexOf (sidebarDefaultVoice current)
          else 0) "" ∈ (v0 :: vs).map Voice.name := by
        by_cases hmem : sidebarDefaultVoice current ∈ (v0 :: vs).map Voice.name
        · rw [if_pos hmem]
          have hlt : ((v0 :: vs).map Voice.name).indexOf (sidebarDefaultVoice current) <
              ((v0 :: vs).map Voice.name).length :=
            List.indexOf_lt_length.mpr hmem
          rw [List.getD_eq_getElem?_getD, List.getElem?_eq_getElem hlt]
          exact List.getElem_mem ..
        · rw [if_neg hmem]
          exact List.mem_map_of_mem Voice.name (List.mem_cons_self v0 vs)
      set sel := ((v0 :: vs).map Voice.name).getD
          (if sidebarDefaultVoice current ∈ (v0 :: vs).map Voice.name then
            ((v0 :: vs).map Voice.name).indexOf (sidebarDefaultVoice current)
          else 0) "" with hseldef
      obtain ⟨w, hw, hwname⟩ := List.mem_map.mp hsel
      have hfilter : w ∈ (v0 :: vs).filter (fun u => u.name == sel) :=
        List.mem_filter.mpr ⟨hw, by simp [hwname]⟩
      have hfne : (v0 :: vs).filter (fun u => u.name == sel) ≠ [] := by
        intro hnil
        rw [hnil] at hfilter
        exact List.not_mem_nil w hfilter
      refine ⟨((v0 :: vs).filter (fun u => u.name == sel)).head hfne,
        List.mem_of_mem_filter (List.head_mem hfne), ?_⟩
      simp only [List.head?_map, List.head?_eq_head hfne]
      rfl

/-- C10 witness: a one-voice catalog not containing the default voice
"Antoni" of the initially selected character. -/
theorem voice_picker_fallback_and_valid_witness :
    ¬(([{ name := "Bob", voice_id := "id1" }] : List Voice) = []) ∧
    ((¬(sidebarDefaultVoice "Sherlock Holmes" ∈
        ([{ name := "Bob", voice_id := "id1" }] : List Voice).map Voice.name) →
      sidebarSelectedVoice [{ name := "Bob", voice_id := "id1" }] "Sherlock Holmes" =
        some ((([{ name := "Bob", voice_id := "id1" }] : List Voice).map
          Voice.name).headD "")) ∧
    ∃ v, v ∈ ([{ name := "Bob", voice_id := "id1" }] : List Voice) ∧
      sidebarVoiceId [{ name := "Bob", voice_id := "id1" }] "Sherlock Holmes" =
        some v.voice_id) :=
  ⟨by decide,
    voice_picker_fallback_and_valid [{ name := "Bob", voice_id := "id1" }]
      "Sherlock Holmes" (by decide)⟩

end CharacterVoice
